import Mathlib

/-!
Verification of the ASR/AST orchestration services
(`src/main.py` and `src/asr-service/main.py`).

Strings are modelled as `List Char`; Python string operations used by the
code (`strip`, `strip('"')`, `lstrip(":")`, `lower`, `startswith`,
`endswith`, slicing) are embedded below.  The external collaborators — the
Whisper speech model and the Ollama generative HTTP service — are modelled
as oracles supplied to each embedded function: Whisper as a
`WhisperOutcome` (either throws or returns a text), Ollama's
`requests.post(... /api/generate ...)` as a function from the prompt string
to a `PostResult` (either a raised network exception, or a status code paired
with a JSON body that may be unparseable or lack the `response` field).
Python exceptions are modelled with `Except`: each `try:` block becomes a
function into `Except PyErr _`, and the enclosing `except Exception` becomes
a `match` that converts the error to the code's fallback value.
-/

/-- Membership of a character in Python's default `str.strip()` whitespace
set, restricted to the ASCII whitespace characters (space, tab, newline,
carriage return, vertical tab, form feed).  All texts occurring in this
development are ASCII, where this agrees with Python. -/
def pyIsSpace (c : Char) : Bool :=
  c == ' ' || c == '\t' || c == '\n' || c == '\r' || c.toNat == 11 || c.toNat == 12

/-- Python `s.strip()`: remove leading and trailing whitespace. -/
def pyStrip (s : List Char) : List Char :=
  ((s.dropWhile pyIsSpace).reverse.dropWhile pyIsSpace).reverse

/-- Python `s.strip(c)` for a one-character set: remove every leading and
every trailing occurrence of `c`. -/
def pyStripChar (c : Char) (s : List Char) : List Char :=
  ((s.dropWhile (fun a => a == c)).reverse.dropWhile (fun a => a == c)).reverse

/-- Python `s.lstrip(":")`: remove every leading colon. -/
def pyLstripColon (s : List Char) : List Char :=
  s.dropWhile (fun a => a == ':')

/-- Python `s.startswith(p)` on code-point lists. -/
def listStartsWith : List Char → List Char → Bool
  | [], _ => true
  | _ :: _, [] => false
  | p :: ps, c :: cs => p == c && listStartsWith ps cs

/-- Python `s.endswith(p)` on code-point lists. -/
def listEndsWith (p s : List Char) : Bool :=
  listStartsWith p.reverse s.reverse

/-- Python `s.lower()`; `Char.toLower` agrees with Python on the ASCII
strings this code compares. -/
def lowerAll (s : List Char) : List Char :=
  s.map Char.toLower

/-- The comparison `s.lower().startswith(p.lower())` used by both
translation cleanups. -/
def startsWithCI (p s : List Char) : Bool :=
  listStartsWith (lowerAll p) (lowerAll s)

/-- Lookup in a Python dict modelled as an association list (`k in d` /
the hit side of `d.get`). -/
def lang_lookup : List (List Char × List Char) → List Char → Option (List Char)
  | [], _ => none
  | kv :: rest, key => if kv.1 = key then some kv.2 else lang_lookup rest key

/-- Python `d.get(key, dflt)`. -/
def dict_get (d : List (List Char × List Char)) (key dflt : List Char) : List Char :=
  (lang_lookup d key).getD dflt

/-- The `SUPPORTED_LANGUAGES` dict, identical in `src/main.py`
(lines 40-56) and `src/asr-service/main.py` (lines 35-40). -/
def SUPPORTED_LANGUAGES : List (List Char × List Char) :=
  [("en".data, "English".data), ("es".data, "Spanish".data),
   ("fr".data, "French".data), ("de".data, "German".data),
   ("it".data, "Italian".data), ("pt".data, "Portuguese".data),
   ("ru".data, "Russian".data), ("ja".data, "Japanese".data),
   ("ko".data, "Korean".data), ("zh".data, "Chinese".data),
   ("ar".data, "Arabic".data), ("hi".data, "Hindi".data),
   ("tr".data, "Turkish".data), ("pl".data, "Polish".data),
   ("nl".data, "Dutch".data)]

/-- Errors a `try:` block of this code can raise: a `requests` network
error or timeout, a JSON decoding error from `response.json()`, or the
`NameError` raised when `src/main.py` calls its missing enhancement
function. -/
inductive PyErr where
  | requestExn
  | jsonExn
  | nameError
deriving DecidableEq

/-- The JSON body of an Ollama reply: either unparseable (so
`response.json()` raises) or a parsed object whose `response` field may be
absent (`result.get("response", text)` then falls back). -/
inductive JsonBody where
  | malformed
  | fields (response : Option (List Char))
deriving DecidableEq

/-- Outcome of `requests.post(f"{OLLAMA_BASE_URL}/api/generate", ...)`:
either the call raises (connection error, timeout), or it yields a status
code and a body. -/
inductive PostResult where
  | raise
  | ok (status : Nat) (body : JsonBody)
deriving DecidableEq

/-- Behaviour of `whisper_model.transcribe` on the uploaded audio: it
either raises or returns a result whose `"text"` field is the given
string. -/
inductive WhisperOutcome where
  | throws
  | returns (text : List Char)
deriving DecidableEq

/-- Process-wide globals of either service: `whisper_model` (None until
loaded; the loaded model is identified with its behaviour on the current
request) and `ollama_available`. -/
structure ServerState where
  whisper_model : Option WhisperOutcome
  ollama_available : Bool
deriving DecidableEq

/-- Shared target-language naming:
`SUPPORTED_LANGUAGES.get(target_language, target_language)`
(`src/main.py` line 147, `src/asr-service/main.py` line 159). -/
def target_lang_name (target_language : List Char) : List Char :=
  dict_get SUPPORTED_LANGUAGES target_language target_language

/-- The translation prompt f-string, textually identical in `src/main.py`
lines 150-155 and `src/asr-service/main.py` lines 162-167 (including the
trailing space after the first sentence). -/
def translate_prompt (source_lang_name tname text : List Char) : List Char :=
  "Translate the following text from ".data ++ source_lang_name ++ " to ".data
    ++ tname
    ++ ". \nProvide only the translation without any explanations or additional text.\n\nText to translate: \"".data
    ++ text ++ "\"\n\nTranslation in ".data ++ tname ++ ":".data

/-- The five-element `prefixes_to_remove` list built by both translation
cleanups (`src/main.py` lines 182-185, `src/asr-service/main.py`
line 181). -/
def pfxs_to_remove (tname : List Char) : List (List Char) :=
  ["Translation:".data, "Translation in".data, tname ++ [':'],
   "Here is the translation:".data, "The translation is:".data]

namespace MainPy

/-- Source-language naming in `src/main.py` line 148:
`SUPPORTED_LANGUAGES.get(source_language, "auto-detected language") if
source_language != "auto" else "auto-detected language"`. -/
def source_lang_name (source_language : List Char) : List Char :=
  if source_language = "auto".data then "auto-detected language".data
  else dict_get SUPPORTED_LANGUAGES source_language "auto-detected language".data

/-- One iteration of the prefix-removal loop of `src/main.py`
lines 187-191: if the accumulated string starts (case-insensitively) with
the prefix, drop it, strip, then drop one further leading colon and strip
again. -/
def strip_step (s p : List Char) : List Char :=
  if startsWithCI p s then
    let t := pyStrip (s.drop p.length)
    if listStartsWith [':'] t then pyStrip (t.drop 1) else t
  else s

/-- The whole `for prefix in prefixes_to_remove:` loop of `src/main.py`
lines 187-191. -/
def strip_pfx_loop (tname s : List Char) : List Char :=
  (pfxs_to_remove tname).foldl strip_step s

/-- Quote stripping of `src/main.py` lines 178-179: remove one leading and
one trailing quote, only when the string both starts and ends with one. -/
def strip_quote_pair (s : List Char) : List Char :=
  if listStartsWith ['"'] s && listEndsWith ['"'] s then (s.drop 1).dropLast else s

/-- The response cleanup of `src/main.py` lines 177-193: quote-pair
stripping followed by the prefix loop. -/
def clean_translated (tname s : List Char) : List Char :=
  strip_pfx_loop tname (strip_quote_pair s)

/-- The `try:` block of `translate_text_with_ollama` in `src/main.py`
lines 145-196, as a fallible computation: build the prompt, post it, and
on a 200 reply clean `result.get("response", text).strip()`; a non-200
reply yields the original text; a network or JSON error is raised. -/
def translate_try (text tgt src : List Char) (post : List Char → PostResult) :
    Except PyErr (List Char) :=
  let tname := target_lang_name tgt
  let sname := source_lang_name src
  match post (translate_prompt sname tname text) with
  | .raise => .error .requestExn
  | .ok status body =>
    if status == 200 then
      match body with
      | .malformed => .error .jsonExn
      | .fields r => .ok (clean_translated tname (pyStrip (r.getD text)))
    else .ok text

/-- `translate_text_with_ollama` of `src/main.py` lines 140-200: return
the text untouched when `ollama_available` is false, otherwise run the
`try:` block and convert any raised error to the unchanged input
(`except Exception ... return text`). -/
def translate_text_with_ollama (avail : Bool) (text tgt src : List Char)
    (post : List Char → PostResult) : List Char :=
  if !avail then text
  else
    match translate_try text tgt src post with
    | .ok r => r
    | .error _ => text

/-- Call of `enhance_text_with_ollama` in `src/main.py` (lines 265
and 340).  `src/main.py` contains no `def enhance_text_with_ollama`: the
intended function body sits unreachable after the returns of
`translate_text_with_ollama` (lines 201-241), so the name is undefined in
the module and the call raises `NameError` for every argument. -/
def enhance_text_call (_text : List Char) : Except PyErr (List Char) :=
  .error .nameError

end MainPy

namespace AsrService

/-- Source-language naming in `src/asr-service/main.py` line 160:
`SUPPORTED_LANGUAGES.get(source_language, "auto") if source_language !=
"auto" else "auto-detected language"`. -/
def source_lang_name (source_language : List Char) : List Char :=
  if source_language = "auto".data then "auto-detected language".data
  else dict_get SUPPORTED_LANGUAGES source_language "auto".data

/-- One iteration of the prefix-removal loop of `src/asr-service/main.py`
lines 181-183: on a case-insensitive match, drop the prefix, then
`.strip().lstrip(":").strip()`. -/
def strip_step (s p : List Char) : List Char :=
  if startsWithCI p s then pyStrip (pyLstripColon (pyStrip (s.drop p.length)))
  else s

/-- The whole `for prefix in [...]:` loop of `src/asr-service/main.py`
lines 181-183. -/
def strip_pfx_loop (tname s : List Char) : List Char :=
  (pfxs_to_remove tname).foldl strip_step s

/-- The response cleanup of `src/asr-service/main.py` lines 180-184: the
prefix loop followed by `translated.strip('"')`. -/
def clean_translated (tname s : List Char) : List Char :=
  pyStripChar '"' (strip_pfx_loop tname s)

/-- The `try:` block of `translate_text_with_ollama` in
`src/asr-service/main.py` lines 158-187. -/
def translate_try (text tgt src : List Char) (post : List Char → PostResult) :
    Except PyErr (List Char) :=
  let tname := target_lang_name tgt
  let sname := source_lang_name src
  match post (translate_prompt sname tname text) with
  | .raise => .error .requestExn
  | .ok status body =>
    if status == 200 then
      match body with
      | .malformed => .error .jsonExn
      | .fields r => .ok (clean_translated tname (pyStrip (r.getD text)))
    else .ok text

/-- `translate_text_with_ollama` of `src/asr-service/main.py`
lines 155-190. -/
def translate_text_with_ollama (avail : Bool) (text tgt src : List Char)
    (post : List Char → PostResult) : List Char :=
  if !avail then text
  else
    match translate_try text tgt src post with
    | .ok r => r
    | .error _ => text

/-- The enhancement prompt f-string of `src/asr-service/main.py`
lines 128-133 (with the trailing space after the first sentence). -/
def enhance_prompt (text : List Char) : List Char :=
  "Please improve and correct the following transcribed text. \nFix grammar, punctuation, and spelling errors while maintaining the original meaning:\n\nText: \"".data
    ++ text ++ "\"\n\nImproved text:".data

/-- The `try:` block of `enhance_text_with_ollama` in
`src/asr-service/main.py` lines 127-150: on a 200 reply the result is
`response.json().get("response", text).strip()` followed by
`.strip('"')`; a non-200 reply yields the original text. -/
def enhance_try (text : List Char) (post : List Char → PostResult) :
    Except PyErr (List Char) :=
  match post (enhance_prompt text) with
  | .raise => .error .requestExn
  | .ok status body =>
    if status == 200 then
      match body with
      | .malformed => .error .jsonExn
      | .fields r => .ok (pyStripChar '"' (pyStrip (r.getD text)))
    else .ok text

/-- `enhance_text_with_ollama` of `src/asr-service/main.py`
lines 124-153. -/
def enhance_text_with_ollama (avail : Bool) (text : List Char)
    (post : List Char → PostResult) : List Char :=
  if !avail then text
  else
    match enhance_try text post with
    | .ok r => r
    | .error _ => text

end AsrService

/-- Result of `transcribe_audio` (`src/main.py` lines 121-138,
`src/asr-service/main.py` lines 110-122, identical): the first component
is the returned text or the raised `HTTPException` status, the second
reports whether the request's temporary file still exists when the
function exits.  The `with tempfile.NamedTemporaryFile(delete=False, ...)`
block creates the file; only the success path reaches `os.unlink`, while a
raising `whisper_model.transcribe` jumps to the `except` clause, which
raises `HTTPException(500, ...)` without deleting the file. -/
def transcribe_audio : WhisperOutcome → Except Nat (List Char) × Bool
  | .throws => (.error 500, true)
  | .returns t => (.ok (pyStrip t), false)

/-- HTTP outcome of a `/transcribe` handler: a 200 body carrying
`transcription` and `enhanced_text` (the float `processing_time` is
wall-clock and not modelled), or an error status. -/
inductive TranscribeResponse where
  | ok (transcription enhanced_text : List Char)
  | error (status : Nat)
deriving DecidableEq

namespace MainPy

/-- The `/transcribe` handler of `src/main.py` lines 243-279: 503 when the
model is not loaded, 400 when the content type does not start with
"audio/", then inside `try:` transcribe (whose `HTTPException` is caught
by `except Exception` and resurfaced as a 500) and call the undefined
`enhance_text_with_ollama`, whose `NameError` is likewise caught and
turned into a 500. -/
def transcribe_audio_endpoint (st : ServerState) (content_type : List Char)
    (_post : List Char → PostResult) : TranscribeResponse :=
  match st.whisper_model with
  | none => .error 503
  | some w =>
    if !listStartsWith "audio/".data content_type then .error 400
    else
      match transcribe_audio w with
      | (.error _, _) => .error 500
      | (.ok transcription, _) =>
        match enhance_text_call transcription with
        | .error _ => .error 500
        | .ok enhanced => .ok transcription enhanced

end MainPy

namespace AsrService

/-- The `/transcribe` handler of `src/asr-service/main.py` lines 195-210:
503 when the model is not loaded, 400 on a non-audio content type, then
transcription (a raised `HTTPException(500)` propagates as the response
status) followed by enhancement. -/
def transcribe_audio_endpoint (st : ServerState) (content_type : List Char)
    (post : List Char → PostResult) : TranscribeResponse :=
  match st.whisper_model with
  | none => .error 503
  | some w =>
    if !listStartsWith "audio/".data content_type then .error 400
    else
      match transcribe_audio w with
      | (.error code, _) => .error code
      | (.ok transcription, _) =>
        .ok transcription (enhance_text_with_ollama st.ollama_available transcription post)

end AsrService

/-- Response of `GET /supported-languages`. -/
structure SupportedLanguagesResponse where
  languages : List (List Char × List Char)
deriving DecidableEq

/-- The `/supported-languages` handler (`src/main.py` lines 361-364,
`src/asr-service/main.py` lines 251-253, identical): it reads no process
state and returns the fixed dict. -/
def get_supported_languages (_st : ServerState) : SupportedLanguagesResponse :=
  ⟨SUPPORTED_LANGUAGES⟩

/-- Response of `GET /health`. -/
structure HealthResponse where
  status : List Char
  whisper_loaded : Bool
  ollama_available : Bool
deriving DecidableEq

/-- The `/health` handler (`src/main.py` lines 366-373,
`src/asr-service/main.py` lines 255-257, identical): a constant
`"healthy"` status next to the two process flags. -/
def health_check (st : ServerState) : HealthResponse :=
  ⟨"healthy".data, st.whisper_model.isSome, st.ollama_available⟩

/-- Modelled from the spec: prefix-stripping that removes at most one
prefix — the first of the five that matches case-insensitively at the
start — with the colon/whitespace cleanup the code applies after a
removal.  Used as the comparison point showing the code's loop removes
more than one prefix. -/
def strip_first_match_spec (tname s : List Char) : List Char :=
  match (pfxs_to_remove tname).find? (fun p => startsWithCI p s) with
  | some p => AsrService.strip_step s p
  | none => s

/-- Modelled from the spec (amended form of the prefix claim): strip each
of the five prefixes once, sequentially and in order, in `src/main.py`'s
variant. -/
def MainPy.strip_each_in_order (tname s : List Char) : List Char :=
  MainPy.strip_step (MainPy.strip_step (MainPy.strip_step (MainPy.strip_step
    (MainPy.strip_step s "Translation:".data) "Translation in".data)
    (tname ++ [':'])) "Here is the translation:".data) "The translation is:".data

/-- Modelled from the spec (amended form of the prefix claim): strip each
of the five prefixes once, sequentially and in order, in the
`src/asr-service` variant. -/
def AsrService.strip_each_in_order (tname s : List Char) : List Char :=
  AsrService.strip_step (AsrService.strip_step (AsrService.strip_step
    (AsrService.strip_step (AsrService.strip_step s "Translation:".data)
    "Translation in".data) (tname ++ [':'])) "Here is the translation:".data)
    "The translation is:".data

/-! Helper lemmas (not tied to a single claim). -/

/-- A head surviving `dropWhile p` does not satisfy `p`. -/
theorem head?_dropWhile_false (p : Char → Bool) :
    ∀ (xs : List Char) (c : Char), (xs.dropWhile p).head? = some c → p c = false := by
  intro xs
  induction xs with
  | nil => intro c h; simp [List.dropWhile] at h
  | cons a as ih =>
    intro c h
    by_cases hp : p a
    · exact ih c (by simpa [List.dropWhile, hp] using h)
    · have hac : a = c := by simpa [List.dropWhile, hp] using h
      rw [← hac]; exact eq_false_of_ne_true hp

/-- The part removed by `dropWhile` is an initial segment. -/
theorem dropWhile_eq_append (p : Char → Bool) :
    ∀ l : List Char, ∃ u, u ++ l.dropWhile p = l := by
  intro l
  induction l with
  | nil => exact ⟨[], rfl⟩
  | cons a as ih =>
    by_cases hp : p a
    · obtain ⟨u, hu⟩ := ih
      exact ⟨a :: u, by simp [List.dropWhile, hp, hu]⟩
    · exact ⟨[], by simp [List.dropWhile, hp]⟩

/-- Python `s.strip(c)` never leaves a leading `c`. -/
theorem pyStripChar_head (c : Char) (s : List Char) :
    (pyStripChar c s).head? ≠ some c := by
  intro hc
  obtain ⟨u, hu⟩ :=
    dropWhile_eq_append (fun a => a == c) (s.dropWhile (fun a => a == c)).reverse
  rcases hX : pyStripChar c s with _ | ⟨b, r⟩
  · rw [hX] at hc; cases hc
  · have hb : b = c := by rw [hX] at hc; injection hc
    have hrev : (s.dropWhile (fun a => a == c)) = (b :: r) ++ u.reverse := by
      have h1 := congrArg List.reverse hu
      rw [List.reverse_append, List.reverse_reverse] at h1
      rw [← h1]
      have : ((s.dropWhile (fun a => a == c)).reverse.dropWhile (fun a => a == c)).reverse
          = b :: r := hX
      rw [this]
    have hhead : (s.dropWhile (fun a => a == c)).head? = some b := by
      rw [hrev]; rfl
    have := head?_dropWhile_false (fun a => a == c) s b hhead
    rw [hb] at this
    simp at this

/-- Python `s.strip(c)` never leaves a trailing `c`. -/
theorem pyStripChar_getLast (c : Char) (s : List Char) :
    (pyStripChar c s).getLast? ≠ some c := by
  intro hc
  rw [pyStripChar, List.getLast?_reverse] at hc
  have := head?_dropWhile_false (fun a => a == c)
    (s.dropWhile (fun a => a == c)).reverse c hc
  simp at this

/-- A prefix that does not match leaves `src/main.py`'s loop step
unchanged. -/
theorem mainpy_step_no_match (s p : List Char) (h : startsWithCI p s = false) :
    MainPy.strip_step s p = s := by
  simp [MainPy.strip_step, h]

/-- A prefix that does not match leaves the `src/asr-service` loop step
unchanged. -/
theorem asr_step_no_match (s p : List Char) (h : startsWithCI p s = false) :
    AsrService.strip_step s p = s := by
  simp [AsrService.strip_step, h]

/-- A fold of match-guarded steps over prefixes none of which matches is
the identity. -/
theorem foldl_strip_id (step : List Char → List Char → List Char)
    (hstep : ∀ s p, startsWithCI p s = false → step s p = s) :
    ∀ (ps : List (List Char)) (s : List Char),
      (∀ p ∈ ps, startsWithCI p s = false) → ps.foldl step s = s := by
  intro ps
  induction ps with
  | nil => intro s _; rfl
  | cons p rest ih =>
    intro s h
    have h1 : step s p = s := hstep s p (h p (List.mem_cons_self p rest))
    rw [List.foldl_cons, h1]
    exact ih s (fun q hq => h q (List.mem_cons_of_mem p hq))

/-! Claim theorems. -/

/-- C1: the claim says that when the generative service answers HTTP 500
during enhancement, `/transcribe` still returns HTTP 200 with
`enhanced_text` equal to the raw transcription.  The `src/asr-service`
handler does exactly that, but the `src/main.py` handler cannot: its call
to the undefined `enhance_text_with_ollama` raises `NameError`, which the
handler converts to an HTTP 500. -/
theorem transcribe_endpoint_500_on_enhancement :
    MainPy.transcribe_audio_endpoint ⟨some (.returns "hello".data), true⟩
        "audio/wav".data (fun _ => .ok 500 (.fields none)) = .error 500
    ∧ AsrService.transcribe_audio_endpoint ⟨some (.returns "hello".data), true⟩
        "audio/wav".data (fun _ => .ok 500 (.fields none))
      = .ok "hello".data "hello".data
    ∧ TranscribeResponse.error 500 ≠ .ok "hello".data "hello".data := by
  refine ⟨by decide, by decide, by decide⟩

/-- C2: when `whisper_model.transcribe` raises, `transcribe_audio` exits
through its `except` clause (re-raising an HTTP 500) without ever reaching
`os.unlink`, so the request's temporary file still exists; only the
success path deletes it. -/
theorem transcribe_audio_tempfile_leak :
    (transcribe_audio .throws).2 = true
    ∧ (∀ t, (transcribe_audio (.returns t)).2 = false)
    ∧ (transcribe_audio .throws).1 = .error 500 :=
  ⟨rfl, fun _ => rfl, rfl⟩

/-- C3 counterexample: with target `"de"` (display name `German`), the
service reply `Translation: German: hallo` loses two prefixes — first
`Translation:`, then `German:` — because the loop does not stop after the
first match; removing only the first matching prefix would leave
`German: hallo`. -/
theorem pfx_strip_removes_two :
    AsrService.translate_text_with_ollama true "x".data "de".data "auto".data
        (fun _ => .ok 200 (.fields (some "Translation: German: hallo".data)))
      = "hallo".data
    ∧ strip_first_match_spec "German".data "Translation: German: hallo".data
      = "German: hallo".data
    ∧ "hallo".data ≠ "German: hallo".data := by
  refine ⟨by decide, by decide, by decide⟩

/-- C3 amended: both cleanup loops try each of the five prefixes in order
and strip every one that matches case-insensitively at the start of the
current string — so several prefixes can be removed in sequence, each at
most once — and a string starting with none of the five is returned with
no prefix removed. -/
theorem pfx_strip_amended (tname s : List Char) :
    MainPy.strip_pfx_loop tname s = MainPy.strip_each_in_order tname s
    ∧ AsrService.strip_pfx_loop tname s = AsrService.strip_each_in_order tname s
    ∧ ((∀ p ∈ pfxs_to_remove tname, startsWithCI p s = false) →
        MainPy.strip_pfx_loop tname s = s ∧ AsrService.strip_pfx_loop tname s = s) := by
  refine ⟨rfl, rfl, fun h => ⟨?_, ?_⟩⟩
  · exact foldl_strip_id MainPy.strip_step mainpy_step_no_match _ s h
  · exact foldl_strip_id AsrService.strip_step asr_step_no_match _ s h

/-- C3 amended, witness: a reply matching none of the five prefixes passes
through both loops unchanged. -/
theorem pfx_strip_amended_witness :
    MainPy.strip_pfx_loop "German".data "hola amigo".data = "hola amigo".data
    ∧ AsrService.strip_pfx_loop "German".data "hola amigo".data = "hola amigo".data :=
  (pfx_strip_amended "German".data "hola amigo".data).2.2 (by decide)

/-- C4 counterexample: the `src/asr-service` enhancement ends with
`enhanced.strip('"')`, so a reply carrying only a leading quote loses it,
where the claim requires the quote to stay in place. -/
theorem quote_strip_unpaired_removed :
    AsrService.enhance_text_with_ollama true "x".data
        (fun _ => .ok 200 (.fields (some "\"hello".data))) = "hello".data
    ∧ "hello".data ≠ "\"hello".data := by
  refine ⟨by decide, by decide⟩

/-- C4 amended: only `src/main.py`'s translation cleanup removes exactly
one leading and one trailing quote and only when both are present; the
`src/asr-service` variant (enhancement and translation) uses
`str.strip('"')`, which removes every leading and every trailing quote —
paired or not — so its output never starts or ends with one. -/
theorem quote_strip_amended (s : List Char) :
    (listStartsWith ['"'] s = true → listEndsWith ['"'] s = true →
        MainPy.strip_quote_pair s = (s.drop 1).dropLast)
    ∧ (¬(listStartsWith ['"'] s = true ∧ listEndsWith ['"'] s = true) →
        MainPy.strip_quote_pair s = s)
    ∧ (pyStripChar '"' s).head? ≠ some '"'
    ∧ (pyStripChar '"' s).getLast? ≠ some '"' := by
  refine ⟨fun h1 h2 => ?_, fun h => ?_, pyStripChar_head '"' s, pyStripChar_getLast '"' s⟩
  · simp [MainPy.strip_quote_pair, h1, h2]
  · have hb : (listStartsWith ['"'] s && listEndsWith ['"'] s) = false := by
      rcases Bool.eq_false_or_eq_true (listStartsWith ['"'] s) with h1 | h1
      · rcases Bool.eq_false_or_eq_true (listEndsWith ['"'] s) with h2 | h2
        · exact absurd ⟨h1, h2⟩ h
        · simp [h2]
      · simp [h1]
    simp [MainPy.strip_quote_pair, hb]

/-- C4 amended, witness: a paired quote is removed once from each side,
and an unpaired leading quote survives `src/main.py`'s cleanup. -/
theorem quote_strip_amended_witness :
    MainPy.strip_quote_pair "\"a\"".data = "a".data
    ∧ MainPy.strip_quote_pair "\"a".data = "\"a".data := by
  constructor
  · have h := (quote_strip_amended ("\"a\"".data)).1 (by decide) (by decide)
    rw [h]; decide
  · exact (quote_strip_amended ("\"a".data)).2.1 (by decide)

/-- C5 counterexample: a 200 reply whose JSON lacks the `response` field
makes the enhancement fall back to the input text, but the fallback still
passes through `.strip()` (and `.strip('"')`), so the input
`" hi "` comes back as `"hi"` — not character-for-character unchanged. -/
theorem soft_failure_missing_field_strips :
    AsrService.enhance_text_with_ollama true " hi ".data
        (fun _ => .ok 200 (.fields none)) = "hi".data
    ∧ "hi".data ≠ " hi ".data := by
  refine ⟨by decide, by decide⟩

/-- C5 amended: a network exception or timeout, a non-200 status, and an
unparseable body all return the input text exactly unchanged, in both
variants of translate and in the enhancement; but a 200 reply whose parsed
body lacks the `response` field falls back to the input text and then
applies the normal output cleanup (strip, quote-strip, prefix-strip), so
that path can alter the text. -/
theorem soft_failure_amended (avail : Bool) (text tgt src : List Char)
    (status : Nat) (body : JsonBody) :
    (AsrService.enhance_text_with_ollama avail text (fun _ => .raise) = text
      ∧ AsrService.translate_text_with_ollama avail text tgt src (fun _ => .raise) = text
      ∧ MainPy.translate_text_with_ollama avail text tgt src (fun _ => .raise) = text)
    ∧ (status ≠ 200 →
        AsrService.enhance_text_with_ollama avail text (fun _ => .ok status body) = text
        ∧ AsrService.translate_text_with_ollama avail text tgt src
            (fun _ => .ok status body) = text
        ∧ MainPy.translate_text_with_ollama avail text tgt src
            (fun _ => .ok status body) = text)
    ∧ (AsrService.enhance_text_with_ollama avail text (fun _ => .ok 200 .malformed) = text
      ∧ AsrService.translate_text_with_ollama avail text tgt src
          (fun _ => .ok 200 .malformed) = text
      ∧ MainPy.translate_text_with_ollama avail text tgt src
          (fun _ => .ok 200 .malformed) = text)
    ∧ (AsrService.enhance_text_with_ollama true text (fun _ => .ok 200 (.fields none))
        = pyStripChar '"' (pyStrip text)
      ∧ AsrService.translate_text_with_ollama true text tgt src
          (fun _ => .ok 200 (.fields none))
        = AsrService.clean_translated (target_lang_name tgt) (pyStrip text)
      ∧ MainPy.translate_text_with_ollama true text tgt src
          (fun _ => .ok 200 (.fields none))
        = MainPy.clean_translated (target_lang_name tgt) (pyStrip text)) := by
  refine ⟨?_, fun h => ?_, ?_, ?_⟩
  · cases avail <;>
      exact ⟨rfl, rfl, rfl⟩
  · have hb : (status == 200) = false := by
      simp [h]
    cases avail
    · exact ⟨rfl, rfl, rfl⟩
    · refine ⟨?_, ?_, ?_⟩ <;>
        simp [AsrService.enhance_text_with_ollama, AsrService.enhance_try,
          AsrService.translate_text_with_ollama, AsrService.translate_try,
          MainPy.translate_text_with_ollama, MainPy.translate_try, hb]
  · cases avail <;> exact ⟨rfl, rfl, rfl⟩
  · exact ⟨rfl, rfl, rfl⟩

/-- C5 amended, witness: a 404 answer leaves the text untouched. -/
theorem soft_failure_amended_witness :
    AsrService.enhance_text_with_ollama true "abc".data
      (fun _ => .ok 404 (.fields none)) = "abc".data :=
  ((soft_failure_amended true "abc".data "en".data "auto".data 404
    (.fields none)).2.1 (by decide)).1

/-- C6 counterexample: for the unmapped source code `"xx"`, `src/main.py`
names the source `auto-detected language` and the `src/asr-service`
variant names it `auto`; neither uses the raw code `"xx"` as the claim
requires. -/
theorem source_name_unmapped_not_raw :
    MainPy.source_lang_name "xx".data = "auto-detected language".data
    ∧ AsrService.source_lang_name "xx".data = "auto".data
    ∧ "auto-detected language".data ≠ "xx".data
    ∧ "auto".data ≠ "xx".data := by
  refine ⟨by decide, by decide, by decide, by decide⟩

/-- C6 amended: the prompt's source-language name is the full display name
when the code is in the mapping and `auto-detected language` when the code
is `auto`; for a code that is neither, `src/main.py` falls back to
`auto-detected language` and the `src/asr-service` variant to `auto` — the
raw code is never used. -/
theorem source_name_amended (src name : List Char) :
    (src = "auto".data →
        MainPy.source_lang_name src = "auto-detected language".data
        ∧ AsrService.source_lang_name src = "auto-detected language".data)
    ∧ (lang_lookup SUPPORTED_LANGUAGES src = some name →
        MainPy.source_lang_name src = name ∧ AsrService.source_lang_name src = name)
    ∧ (src ≠ "auto".data → lang_lookup SUPPORTED_LANGUAGES src = none →
        MainPy.source_lang_name src = "auto-detected language".data
        ∧ AsrService.source_lang_name src = "auto".data) := by
  refine ⟨fun h => ?_, fun h => ?_, fun h1 h2 => ?_⟩
  · subst h
    exact ⟨rfl, rfl⟩
  · have hsrc : src ≠ "auto".data := by
      intro he
      subst he
      have hnone : lang_lookup SUPPORTED_LANGUAGES "auto".data = none := by decide
      rw [hnone] at h
      cases h
    constructor <;>
      simp [MainPy.source_lang_name, AsrService.source_lang_name, hsrc, dict_get, h]
  · constructor <;>
      simp [MainPy.source_lang_name, AsrService.source_lang_name, h1, dict_get, h2]

/-- C6 amended, witness: the three cases at `auto`, at the mapped code
`es`, and at the unmapped code `xx`. -/
theorem source_name_amended_witness :
    MainPy.source_lang_name "auto".data = "auto-detected language".data
    ∧ MainPy.source_lang_name "es".data = "Spanish".data
    ∧ AsrService.source_lang_name "xx".data = "auto".data :=
  ⟨((source_name_amended "auto".data []).1 rfl).1,
   ((source_name_amended "es".data "Spanish".data).2.1 (by decide)).1,
   ((source_name_amended "xx".data []).2.2 (by decide) (by decide)).2⟩

/-- C7: the enhance and translate operations are total functions of the
service behaviour — their bodies are fallible computations whose every
error the wrapping `except Exception` converts to the unchanged input — so
whenever the body raises, the operation returns the input text exactly,
in all three defined variants. -/
theorem never_raise_fallback (avail : Bool) (text tgt src : List Char)
    (post : List Char → PostResult) (e : PyErr) :
    (AsrService.enhance_try text post = .error e →
      AsrService.enhance_text_with_ollama avail text post = text)
    ∧ (AsrService.translate_try text tgt src post = .error e →
      AsrService.translate_text_with_ollama avail text tgt src post = text)
    ∧ (MainPy.translate_try text tgt src post = .error e →
      MainPy.translate_text_with_ollama avail text tgt src post = text) := by
  refine ⟨fun h => ?_, fun h => ?_, fun h => ?_⟩ <;>
    cases avail <;>
      simp [AsrService.enhance_text_with_ollama, AsrService.translate_text_with_ollama,
        MainPy.translate_text_with_ollama, h]

/-- C7 witness: an unreachable service (the post call raises) leaves the
text unchanged in all three operations. -/
theorem never_raise_fallback_witness :
    AsrService.enhance_text_with_ollama true "a".data (fun _ => .raise) = "a".data
    ∧ AsrService.translate_text_with_ollama true "a".data "en".data "auto".data
        (fun _ => .raise) = "a".data
    ∧ MainPy.translate_text_with_ollama true "a".data "en".data "auto".data
        (fun _ => .raise) = "a".data := by
  have h := never_raise_fallback true "a".data "en".data "auto".data
    (fun _ => .raise) .requestExn
  exact ⟨h.1 rfl, h.2.1 rfl, h.2.2 rfl⟩

/-- C8: with `ollama_available = false` both translate variants return on
their first line, so for every supported target code (and any source code
and service behaviour) translation is the identity on the text. -/
theorem translate_unavailable_identity (text tgt src : List Char)
    (post : List Char → PostResult)
    (_supported : (lang_lookup SUPPORTED_LANGUAGES tgt).isSome = true) :
    MainPy.translate_text_with_ollama false text tgt src post = text
    ∧ AsrService.translate_text_with_ollama false text tgt src post = text :=
  ⟨rfl, rfl⟩

/-- C8 witness: identity at the supported target `en`. -/
theorem translate_unavailable_identity_witness :
    MainPy.translate_text_with_ollama false "hola".data "en".data "auto".data
        (fun _ => .raise) = "hola".data
    ∧ AsrService.translate_text_with_ollama false "hola".data "en".data "auto".data
        (fun _ => .raise) = "hola".data :=
  translate_unavailable_identity "hola".data "en".data "auto".data
    (fun _ => .raise) (by decide)

/-- C9: for every process state, `GET /supported-languages` returns
exactly the fixed 15 code-name pairs. -/
theorem supported_languages_fixed (st : ServerState) :
    (get_supported_languages st).languages =
      [("en".data, "English".data), ("es".data, "Spanish".data),
       ("fr".data, "French".data), ("de".data, "German".data),
       ("it".data, "Italian".data), ("pt".data, "Portuguese".data),
       ("ru".data, "Russian".data), ("ja".data, "Japanese".data),
       ("ko".data, "Korean".data), ("zh".data, "Chinese".data),
       ("ar".data, "Arabic".data), ("hi".data, "Hindi".data),
       ("tr".data, "Turkish".data), ("pl".data, "Polish".data),
       ("nl".data, "Dutch".data)]
    ∧ (get_supported_languages st).languages.length = 15 :=
  ⟨rfl, rfl⟩

/-- C10: `GET /health` reports the constant status `healthy` in every
process state; only the two booleans reflect the state, so the status flag
never encodes a missing model or an unavailable service. -/
theorem health_status_constant (st : ServerState) :
    (health_check st).status = "healthy".data
    ∧ (health_check st).whisper_loaded = st.whisper_model.isSome
    ∧ (health_check st).ollama_available = st.ollama_available :=
  ⟨rfl, rfl, rfl⟩
